import Mathlib

/-!
Shallow embedding of the voice-controls demo application: the relay
server endpoints (src/server/index.js), the browser-side API gateway
(src/src/services/openai.ts and src/audioUtils.js), and the
recording/session controller (src/src/components/VoiceControls.tsx,
mounted twice by the App component).

Times are modelled as integers (milliseconds, as produced by the
JavaScript clock), JS strings as Lean strings, and binary buffers as
lists of bytes (natural numbers).
-/

namespace VoiceDemo

/-! ### JavaScript string primitives

The handlers call the host-language string built-ins `trim`, `length`
and `includes`, and use the `||`-with-default idiom on possibly absent
strings.  They are modelled here over the character list of a string.
-/

def jsIsWS (c : Char) : Bool :=
  c = ' ' || c = '\t' || c = '\n' || c = '\r'

/-- JS `String.prototype.trim`: strip leading and trailing whitespace. -/
def jsTrim (s : String) : String :=
  String.mk (((s.data.dropWhile jsIsWS).reverse.dropWhile jsIsWS).reverse)

/-- JS `String.prototype.length`. -/
def jsLength (s : String) : Nat :=
  s.data.length

/-- Does `hay` start with `needle`? -/
def startsWithChars : List Char → List Char → Bool
  | [], _ => true
  | _ :: _, [] => false
  | a :: as, b :: bs => a = b && startsWithChars as bs

/-- Does `hay` contain `needle` as a contiguous run? -/
def containsChars (hay needle : List Char) : Bool :=
  match hay with
  | [] => needle.isEmpty
  | _ :: t => startsWithChars needle hay || containsChars t needle

/-- JS `String.prototype.includes`. -/
def jsIncludes (s sub : String) : Bool :=
  containsChars s.data sub.data

/-- JS `x || d` for a possibly absent string `x` (absent and empty are falsy). -/
def jsOrStr (x : Option String) (d : String) : String :=
  match x with
  | some s => if s = "" then d else s
  | none => d

/-- JS `x || 0` for a possibly absent number. -/
def jsOrZero (x : Option Int) : Int :=
  match x with
  | some v => v
  | none => 0

/-- JS `x || 500` for a possibly absent status number (0 is falsy). -/
def jsStatusOr500 (x : Option Int) : Int :=
  match x with
  | some v => if v = 0 then 500 else v
  | none => 500

/-! ### Server rate gate (src/server/index.js, `checkRateLimit`)

`rateLimit` is a `Map` from client IP to the timestamp of the last
accepted request; it is modelled as an association list with the
`Map.get`/`Map.set` access pattern used by the code (`get(ip) || 0`,
`set(ip, now)`).
-/

abbrev RateMap := List (String × Int)

/-- `rateLimit.get(ip) || 0`. -/
def rateGet (m : RateMap) (ip : String) : Int :=
  match m with
  | [] => 0
  | (k, v) :: rest => if k = ip then v else rateGet rest ip

/-- `rateLimit.set(ip, t)`: replace the binding for `ip`, or append it. -/
def rateSet (m : RateMap) (ip : String) (t : Int) : RateMap :=
  match m with
  | [] => [(ip, t)]
  | (k, v) :: rest => if k = ip then (k, t) :: rest else (k, v) :: rateSet rest ip t

/-- `RATE_LIMIT_WINDOW = 1000` (one second). -/
def RATE_LIMIT_WINDOW : Int := 1000

structure RateResult where
  accepted : Bool
  state : RateMap
  deriving Repr, DecidableEq

/-- `checkRateLimit(ip)` from src/server/index.js, with the mutable map
and the clock made explicit. -/
def checkRateLimit (m : RateMap) (ip : String) (now : Int) : RateResult :=
  let lastRequest := rateGet m ip
  if now - lastRequest < RATE_LIMIT_WINDOW then
    ⟨false, m⟩
  else
    ⟨true, rateSet m ip now⟩

/-! ### Server endpoint `POST /api/speech` (src/server/index.js) -/

/-- An error thrown by the provider SDK: JS error objects expose an
optional numeric `status` and a `message`. -/
structure ProviderErr where
  status : Option Int
  message : String
  deriving Repr, DecidableEq

/-- The JSON body of a `POST /api/speech` request: `{ text, voice? }`. -/
structure SpeechBody where
  text : String
  voice : Option String
  deriving Repr, DecidableEq

inductive SpeechResponse where
  /-- `res.status(s).json({ error: e })` -/
  | json (status : Int) (error : String)
  /-- `res.set(...); res.send(buffer)`: content type, Content-Length
  header value, and the body bytes actually sent. -/
  | audio (contentType : String) (contentLength : Nat) (body : List Nat)
  deriving Repr, DecidableEq

structure SpeechResult where
  response : SpeechResponse
  rateState : RateMap
  /-- `some (voice, input)` when `openai.audio.speech.create` was
  invoked, recording the arguments it received; `none` otherwise. -/
  providerCalled : Option (String × String)
  deriving Repr, DecidableEq

/-- `const selectedVoice = voice || 'alloy'`. -/
def selectedVoice (voice : Option String) : String :=
  jsOrStr voice "alloy"

/-- Error message classification in the `/api/speech` catch block. -/
def speechErrMsg (msg : String) : String :=
  if jsIncludes msg "timeout" || jsIncludes msg "socket hang up" then
    "Request timed out. Consider using shorter text in StackBlitz environment."
  else
    "Failed to generate speech."

/-- The `POST /api/speech` handler.  The provider call
`openai.audio.speech.create({model, voice, input})` is abstracted as a
function from the selected voice and input text to either the response
bytes or a thrown provider error. -/
def speechHandler (m : RateMap) (ip : String) (now : Int) (body : SpeechBody)
    (provider : String → String → Except ProviderErr (List Nat)) : SpeechResult :=
  let gate := checkRateLimit m ip now
  if gate.accepted = false then
    ⟨.json 429 "Too many requests. Please wait a moment.", gate.state, none⟩
  else if body.text = "" || jsTrim body.text = "" then
    ⟨.json 400 "No text provided", gate.state, none⟩
  else if jsLength body.text > 4000 then
    ⟨.json 400 "Text too long. Maximum length is 4000 characters.", gate.state, none⟩
  else
    let v := selectedVoice body.voice
    match provider v body.text with
    | .ok buffer =>
        ⟨.audio "audio/mpeg" buffer.length buffer, gate.state, some (v, body.text)⟩
    | .error e =>
        ⟨.json (jsStatusOr500 e.status) (speechErrMsg e.message), gate.state, some (v, body.text)⟩

/-! ### Server endpoint `POST /api/transcribe` (src/server/index.js) -/

/-- The multer file object attached to the request, when a file part
named `audio` was uploaded. -/
structure UploadFile where
  size : Nat
  mimetype : String
  originalname : String
  deriving Repr, DecidableEq

inductive TranscribeResponse where
  /-- `res.status(s).json({ error: e })` -/
  | jsonError (status : Int) (error : String)
  /-- `res.json({ text })` (status 200) -/
  | jsonText (text : String)
  deriving Repr, DecidableEq

structure TranscribeResult where
  response : TranscribeResponse
  rateState : RateMap
  /-- Was `openai.audio.transcriptions.create` invoked? -/
  providerCalled : Bool
  deriving Repr, DecidableEq

/-- Error message classification in the `/api/transcribe` catch block. -/
def transcribeErrMsg (e : ProviderErr) : String :=
  if jsIncludes e.message "socket hang up" || jsIncludes e.message "timeout" then
    "Connection timed out. StackBlitz has limited connection timeouts for large files. Try a shorter audio clip (under 10 seconds)."
  else if jsIncludes e.message "File" then
    "File handling error in StackBlitz environment. Try using the formData approach in the frontend."
  else if e.status = some 400 then
    "Invalid audio format. Please ensure you\x27re sending a supported audio format (MP3, WAV, etc.)."
  else if e.status = some 401 then
    "Authentication error. Please check your API key."
  else
    "Failed to transcribe audio."

/-- The `POST /api/transcribe` handler.  The provider call is abstracted
as a result that is either a thrown provider error or the `text` field
of the provider response (`none` when the response is null or carries no
text, `some ""` when it carries an empty text, both falsy in
`!response || !response.text`). -/
def transcribeHandler (m : RateMap) (ip : String) (now : Int) (file : Option UploadFile)
    (provider : Except ProviderErr (Option String)) : TranscribeResult :=
  let gate := checkRateLimit m ip now
  if gate.accepted = false then
    ⟨.jsonError 429 "Too many requests. Please wait a moment.", gate.state, false⟩
  else
    match file with
    | none => ⟨.jsonError 400 "No audio file provided", gate.state, false⟩
    | some _ =>
      match provider with
      | .ok t =>
        match t with
        | none => ⟨.jsonError 500 "Failed to transcribe audio. No text returned.", gate.state, true⟩
        | some txt =>
          if txt = "" then
            ⟨.jsonError 500 "Failed to transcribe audio. No text returned.", gate.state, true⟩
          else
            ⟨.jsonText txt, gate.state, true⟩
      | .error e =>
        ⟨.jsonError (jsStatusOr500 e.status) (transcribeErrMsg e), gate.state, true⟩

/-! ### Client API gateway (src/src/services/openai.ts)

A browser `fetch` either fails at the network level before any HTTP
status is obtained (the thrown `TypeError` carries the message
`Failed to fetch`) or yields a response with an `ok` flag, a parsed
JSON `error` field (for non-ok responses) and a success payload.
-/

inductive FetchResult (α : Type) where
  /-- The fetch primitive itself threw (no HTTP status obtained). -/
  | netFail
  /-- A response arrived: `ok` flag, JSON `error` field of the body
  (meaningful on non-ok responses), success payload. -/
  | resp (ok : Bool) (errorField : Option String) (value : α)
  deriving Repr, DecidableEq

def connFailMsg : String :=
  "Server connection failed. Please ensure the server is running."

/-- The outer catch block of both gateway operations: a raw network
failure of the underlying fetch is normalized to the connection-failed
message, every other error is rethrown unchanged. -/
def normalizeNetErr (msg : String) : String :=
  if msg = "Failed to fetch" then connFailMsg else msg

structure GatewayRun (α : Type) where
  result : Except String α
  /-- Was the main request issued (as opposed to failing at the
  liveness check)? -/
  mainAttempted : Bool
  deriving Repr

instance {ε α : Type} [DecidableEq ε] [DecidableEq α] : DecidableEq (Except ε α) := by
  intro a b
  cases a <;> cases b
  case error.error x y =>
    exact decidable_of_iff _ (iff_of_eq (Except.error.injEq _ _)).symm
  case ok.ok x y =>
    exact decidable_of_iff _ (iff_of_eq (Except.ok.injEq _ _)).symm
  all_goals exact isFalse (by intro h; cases h)

instance {α : Type} [DecidableEq α] : DecidableEq (GatewayRun α) := by
  intro a b
  cases a
  cases b
  exact decidable_of_iff _ (iff_of_eq (GatewayRun.mk.injEq _ _ _ _)).symm

/-- `transcribeAudio` from src/src/services/openai.ts, as a function of
the outcome of its health-check fetch and of its main fetch (whose
success payload is the `text` field of the response). -/
def transcribeAudioClient (health : FetchResult Unit) (main : FetchResult String) :
    GatewayRun String :=
  match health with
  | .netFail => ⟨.error (normalizeNetErr connFailMsg), false⟩
  | .resp ok _ _ =>
    if ok = false then
      ⟨.error (normalizeNetErr connFailMsg), false⟩
    else
      match main with
      | .netFail => ⟨.error (normalizeNetErr "Failed to fetch"), true⟩
      | .resp ok2 errF text =>
        if ok2 = false then
          ⟨.error (normalizeNetErr (jsOrStr errF "Failed to transcribe audio")), true⟩
        else
          ⟨.ok text, true⟩

/-- `generateSpeech` from src/src/services/openai.ts: the request body
is `JSON.stringify({ text })`, and the success payload is the raw audio
bytes. -/
def generateSpeechClient (health : FetchResult Unit) (main : FetchResult (List Nat)) :
    GatewayRun (List Nat) :=
  match health with
  | .netFail => ⟨.error (normalizeNetErr connFailMsg), false⟩
  | .resp ok _ _ =>
    if ok = false then
      ⟨.error (normalizeNetErr connFailMsg), false⟩
    else
      match main with
      | .netFail => ⟨.error (normalizeNetErr "Failed to fetch"), true⟩
      | .resp ok2 errF bytes =>
        if ok2 = false then
          ⟨.error (normalizeNetErr (jsOrStr errF "Failed to generate speech")), true⟩
        else
          ⟨.ok bytes, true⟩

/-- The JSON body sent by `generateSpeech` in src/src/services/openai.ts:
`JSON.stringify({ text })` — no `voice` field. -/
def clientSpeechBody (text : String) : SpeechBody :=
  ⟨text, none⟩

/-! ### Main-request descriptors (src/src/services/openai.ts and
src/audioUtils.js)

Each main fetch issued by the client code, with the deadline of the
abort signal attached to it (`none` when no signal is attached).
-/

structure FetchRequest where
  url : String
  method : String
  timeoutMs : Option Nat
  deriving Repr, DecidableEq

/-- src/src/services/openai.ts `transcribeAudio`: no abort signal. -/
def servicesTranscribeRequest : FetchRequest :=
  ⟨"/api/transcribe", "POST", none⟩

/-- src/src/services/openai.ts `generateSpeech`: no abort signal. -/
def servicesSpeechRequest : FetchRequest :=
  ⟨"/api/speech", "POST", none⟩

/-- src/audioUtils.js `transcribeAudio`: 30 s abort signal. -/
def audioUtilsTranscribeRequest : FetchRequest :=
  ⟨"/api/transcribe", "POST", some 30000⟩

/-- src/audioUtils.js `generateSpeech`: 30 s abort signal. -/
def audioUtilsSpeechRequest : FetchRequest :=
  ⟨"/api/speech", "POST", some 30000⟩

/-- All main requests issued by client-side code in this repository. -/
def clientMainRequests : List FetchRequest :=
  [servicesTranscribeRequest, servicesSpeechRequest,
   audioUtilsTranscribeRequest, audioUtilsSpeechRequest]

/-- Outcome of a fetch guarded by an abort signal: the abort fires, or
the fetch fails or responds as in `FetchResult`. -/
inductive FetchOutcome (α : Type) where
  | abortError
  | netFail
  | resp (ok : Bool) (errorField : Option String) (value : α)
  deriving Repr, DecidableEq

/-- The result mapping of src/audioUtils.js `transcribeAudio`: an abort
is turned into the dedicated timeout message, other errors propagate. -/
def audioUtilsTranscribeResult (o : FetchOutcome String) : Except String String :=
  match o with
  | .abortError =>
      .error "Transcription request timed out. Try a shorter recording (under 10 seconds)."
  | .netFail => .error "Failed to fetch"
  | .resp ok errF text =>
      if ok = false then .error (jsOrStr errF "Transcription failed")
      else .ok text

/-- The result mapping of src/audioUtils.js `generateSpeech`. -/
def audioUtilsSpeechResult (o : FetchOutcome (List Nat)) : Except String (List Nat) :=
  match o with
  | .abortError =>
      .error "Speech generation request timed out. Try shorter text."
  | .netFail => .error "Failed to fetch"
  | .resp ok errF bytes =>
      if ok = false then .error (jsOrStr errF "Speech generation failed")
      else .ok bytes

/-! ### Client rate limiter (src/src/components/VoiceControls.tsx)

`lastApiCallRef = useRef<number>(0)` is component-instance state: the
App component (src/unnamed/part_000) mounts two `VoiceControls`
instances, one with `type="input"` and one with `type="output"`, and
each instance owns its own `lastApiCallRef`.
-/

/-- `RATE_LIMIT_DELAY = 1000` (one second). -/
def RATE_LIMIT_DELAY : Int := 1000

/-- One component instance's `lastApiCallRef` (initialised to 0). -/
structure ClientLimiter where
  lastApiCall : Int
  deriving Repr, DecidableEq

structure ClientCheck where
  ok : Bool
  limiter : ClientLimiter
  /-- The message passed to `setError`, when any. -/
  error : Option String
  deriving Repr, DecidableEq

/-- `checkRateLimit` from VoiceControls.tsx, over one instance's ref. -/
def clientCheckRateLimit (l : ClientLimiter) (now : Int) : ClientCheck :=
  if now - l.lastApiCall < RATE_LIMIT_DELAY then
    ⟨false, l, some "Please wait a moment before making another request."⟩
  else
    ⟨true, ⟨now⟩, none⟩

/-- The two limiter refs that exist in the mounted App: one per
`VoiceControls` instance. -/
structure AppLimiters where
  inputLimiter : ClientLimiter
  outputLimiter : ClientLimiter
  deriving Repr, DecidableEq

inductive Side where
  | input
  | output
  deriving Repr, DecidableEq

def limiterOf (s : AppLimiters) : Side → ClientLimiter
  | .input => s.inputLimiter
  | .output => s.outputLimiter

/-- A rate-limit check performed by a user action on one side of the
mounted App (`startRecording` on the input side, `handleTextToSpeech`
on the output side): it consults and updates only that side's ref. -/
def appAction (s : AppLimiters) (side : Side) (now : Int) : ClientCheck × AppLimiters :=
  match side with
  | .input =>
      let r := clientCheckRateLimit s.inputLimiter now
      (r, { s with inputLimiter := r.limiter })
  | .output =>
      let r := clientCheckRateLimit s.outputLimiter now
      (r, { s with outputLimiter := r.limiter })

/-! ### Recording lifecycle (src/src/components/VoiceControls.tsx) -/

inductive TrackState where
  | live
  | ended
  deriving Repr, DecidableEq

/-- `MediaRecorder.state`. -/
inductive RecState where
  | inactive
  | recording
  | paused
  deriving Repr, DecidableEq

/-- A `MediaRecorder` together with the tracks of its stream. -/
structure Recorder where
  state : RecState
  streamTracks : List TrackState
  deriving Repr, DecidableEq

/-- `mediaRecorder.current` (null before any recording started). -/
structure RecorderRef where
  mediaRecorder : Option Recorder
  deriving Repr, DecidableEq

/-- `MediaRecorder.stop()`: throws `InvalidStateError` when the
recorder is inactive, otherwise moves it to the inactive state. -/
def recorderStop (r : Recorder) : Except String Recorder :=
  match r.state with
  | .inactive => .error "InvalidStateError"
  | _ => .ok { r with state := .inactive }

/-- `stream.getTracks().forEach(track => track.stop())`. -/
def stopAllTracks (ts : List TrackState) : List TrackState :=
  ts.map (fun _ => .ended)

/-- `stopRecording` from VoiceControls.tsx: guarded by
`mediaRecorder.current && mediaRecorder.current.state !== 'inactive'`. -/
def stopRecording (c : RecorderRef) : Except String RecorderRef :=
  match c.mediaRecorder with
  | none => .ok c
  | some r =>
    if r.state = .inactive then
      .ok c
    else
      match recorderStop r with
      | .error e => .error e
      | .ok r2 => .ok ⟨some { r2 with streamTracks := stopAllTracks r2.streamTracks }⟩

/-- One tick of the countdown interval: when the remaining time is at
most 1 the tick calls `stopRecording` and sets the counter to 0,
otherwise it decrements the counter. -/
def countdownTick (timeLeft : Nat) (c : RecorderRef) : Nat × Except String RecorderRef :=
  if timeLeft ≤ 1 then
    (0, stopRecording c)
  else
    (timeLeft - 1, .ok c)

/-! ### `startRecording` (src/src/components/VoiceControls.tsx) -/

/-- The target surface held by `targetRef` (a textarea on the input
side, a div on the output side). -/
inductive Target where
  | textArea (value : String)
  | divEl (text : String)
  deriving Repr, DecidableEq

/-- Outcome of `requestMicrophonePermission`. -/
inductive PermOutcome where
  | granted
  | deniedNotAllowed
  | deniedNotFound
  | deniedNotReadable
  | deniedOther
  deriving Repr, DecidableEq

def permErrorMsg : PermOutcome → String
  | .deniedNotAllowed =>
      "Microphone access denied. Please allow microphone access in your browser settings and try again."
  | .deniedNotFound =>
      "No microphone found. Please connect a microphone and try again."
  | .deniedNotReadable =>
      "Could not access microphone. The device may be in use by another application."
  | _ =>
      "Could not access microphone. Please check your settings and try again."

/-- `if (targetRef.current instanceof HTMLTextAreaElement) targetRef.current.value = ''`. -/
def clearTextArea : Target → Target
  | .textArea _ => .textArea ""
  | t => t

/-- The state an input-side `VoiceControls` instance touches in
`startRecording`. -/
structure InputState where
  limiter : ClientLimiter
  target : Target
  error : Option String
  isRecording : Bool
  isProcessing : Bool
  deriving Repr, DecidableEq

/-- `startRecording`: rate-limit check, clear error/processing flags,
clear the textarea, then request microphone permission; on grant start
recording, on denial surface the permission error (the textarea stays
cleared). -/
def startRecording (s : InputState) (now : Int) (perm : PermOutcome) : InputState :=
  let r := clientCheckRateLimit s.limiter now
  if r.ok = false then
    { s with limiter := r.limiter, error := r.error }
  else
    let s1 : InputState :=
      { s with limiter := r.limiter, error := none, isProcessing := false,
               target := clearTextArea s.target }
    match perm with
    | .granted => { s1 with isRecording := true }
    | p => { s1 with error := some (permErrorMsg p), isRecording := false }

/-! ### Helper lemmas -/

theorem rateGet_rateSet_self (m : RateMap) (ip : String) (t : Int) :
    rateGet (rateSet m ip t) ip = t := by
  induction m with
  | nil => simp [rateGet, rateSet]
  | cons p rest ih =>
    obtain ⟨k, v⟩ := p
    by_cases h : k = ip
    · simp [rateGet, rateSet, h]
    · simp [rateGet, rateSet, h, ih]

theorem rateGet_rateSet_other (m : RateMap) (ip ip2 : String) (t : Int)
    (h : ip2 ≠ ip) : rateGet (rateSet m ip t) ip2 = rateGet m ip2 := by
  have hne : ip ≠ ip2 := fun hh => h hh.symm
  induction m with
  | nil => simp [rateGet, rateSet, hne]
  | cons p rest ih =>
    obtain ⟨k, v⟩ := p
    by_cases hk : k = ip
    · subst hk
      simp [rateGet, rateSet, hne]
    · simp [rateGet, rateSet, hk, ih]

theorem checkRateLimit_reject (m : RateMap) (ip : String) (now : Int)
    (h : now - rateGet m ip < 1000) :
    checkRateLimit m ip now = ⟨false, m⟩ := by
  simp [checkRateLimit, RATE_LIMIT_WINDOW, h]

theorem checkRateLimit_accept (m : RateMap) (ip : String) (now : Int)
    (h : ¬ now - rateGet m ip < 1000) :
    checkRateLimit m ip now = ⟨true, rateSet m ip now⟩ := by
  simp [checkRateLimit, RATE_LIMIT_WINDOW, h]

theorem speechErrMsg_ne_rate (msg : String) :
    speechErrMsg msg ≠ "Too many requests. Please wait a moment." := by
  unfold speechErrMsg
  split
  · decide
  · decide

theorem transcribeErrMsg_ne_rate (e : ProviderErr) :
    transcribeErrMsg e ≠ "Too many requests. Please wait a moment." := by
  unfold transcribeErrMsg
  split
  · decide
  · split
    · decide
    · split
      · decide
      · split
        · decide
        · decide

theorem speechHandler_reject (m : RateMap) (ip : String) (now : Int)
    (body : SpeechBody) (provider : String → String → Except ProviderErr (List Nat))
    (h : now - rateGet m ip < 1000) :
    speechHandler m ip now body provider
      = ⟨.json 429 "Too many requests. Please wait a moment.", m, none⟩ := by
  simp [speechHandler, checkRateLimit_reject m ip now h]

theorem speechHandler_accept_no429 (m : RateMap) (ip : String) (now : Int)
    (body : SpeechBody) (provider : String → String → Except ProviderErr (List Nat))
    (h : ¬ now - rateGet m ip < 1000) :
    (speechHandler m ip now body provider).response
      ≠ .json 429 "Too many requests. Please wait a moment." := by
  intro heq
  simp only [speechHandler, checkRateLimit_accept m ip now h] at heq
  norm_num at heq
  split at heq
  · simp only [SpeechResponse.json.injEq] at heq
    exact absurd heq.1 (by norm_num)
  · split at heq
    · simp only [SpeechResponse.json.injEq] at heq
      exact absurd heq.1 (by norm_num)
    · split at heq
      · simp at heq
      · simp only [SpeechResponse.json.injEq] at heq
        exact speechErrMsg_ne_rate _ heq.2

theorem transcribeHandler_reject (m : RateMap) (ip : String) (now : Int)
    (file : Option UploadFile) (provider : Except ProviderErr (Option String))
    (h : now - rateGet m ip < 1000) :
    transcribeHandler m ip now file provider
      = ⟨.jsonError 429 "Too many requests. Please wait a moment.", m, false⟩ := by
  simp [transcribeHandler, checkRateLimit_reject m ip now h]

theorem transcribeHandler_accept_no429 (m : RateMap) (ip : String) (now : Int)
    (file : Option UploadFile) (provider : Except ProviderErr (Option String))
    (h : ¬ now - rateGet m ip < 1000) :
    (transcribeHandler m ip now file provider).response
      ≠ .jsonError 429 "Too many requests. Please wait a moment." := by
  intro heq
  simp only [transcribeHandler, checkRateLimit_accept m ip now h] at heq
  norm_num at heq
  split at heq
  · simp only [TranscribeResponse.jsonError.injEq] at heq
    exact absurd heq.1 (by norm_num)
  · split at heq
    · split at heq
      · simp only [TranscribeResponse.jsonError.injEq] at heq
        exact absurd heq.1 (by norm_num)
      · split at heq
        · simp only [TranscribeResponse.jsonError.injEq] at heq
          exact absurd heq.1 (by norm_num)
        · simp at heq
    · simp only [TranscribeResponse.jsonError.injEq] at heq
      exact transcribeErrMsg_ne_rate _ heq.2

/-! ### Claims -/

/-- Claim C1: for every client key (IP), the server rate gate rejects a
request (with the 429 `Too many requests` response in both endpoints)
iff strictly less than 1000 ms have elapsed since that key's last
accepted request; an accepted request updates the key's stored
timestamp to the current time (leaving other keys alone), and a
rejected request leaves the stored map unchanged. -/
theorem C1_server_rate_gate (m : RateMap) (ip : String) (now : Int) :
    ((checkRateLimit m ip now).accepted = false ↔ now - rateGet m ip < 1000)
    ∧ ((checkRateLimit m ip now).accepted = true →
        rateGet (checkRateLimit m ip now).state ip = now
        ∧ ∀ ip2, ip2 ≠ ip →
            rateGet (checkRateLimit m ip now).state ip2 = rateGet m ip2)
    ∧ ((checkRateLimit m ip now).accepted = false →
        (checkRateLimit m ip now).state = m)
    ∧ (∀ body provider, (now - rateGet m ip < 1000 ↔
        (speechHandler m ip now body provider).response
          = .json 429 "Too many requests. Please wait a moment."))
    ∧ (∀ file provider, (now - rateGet m ip < 1000 ↔
        (transcribeHandler m ip now file provider).response
          = .jsonError 429 "Too many requests. Please wait a moment.")) := by
  by_cases h : now - rateGet m ip < 1000
  · refine ⟨?_, ?_, ?_, ?_, ?_⟩
    · simp [checkRateLimit_reject m ip now h, h]
    · simp [checkRateLimit_reject m ip now h]
    · simp [checkRateLimit_reject m ip now h]
    · intro body provider
      simp [speechHandler_reject m ip now body provider h, h]
    · intro file provider
      simp [transcribeHandler_reject m ip now file provider h, h]
  · refine ⟨?_, ?_, ?_, ?_, ?_⟩
    · simp [checkRateLimit_accept m ip now h, h]
    · intro _
      simp only [checkRateLimit_accept m ip now h]
      exact ⟨rateGet_rateSet_self m ip now,
             fun ip2 h2 => rateGet_rateSet_other m ip ip2 now h2⟩
    · simp [checkRateLimit_accept m ip now h]
    · intro body provider
      simp only [h, false_iff]
      exact fun heq => speechHandler_accept_no429 m ip now body provider h heq
    · intro file provider
      simp only [h, false_iff]
      exact fun heq => transcribeHandler_accept_no429 m ip now file provider h heq

/-- Witness for C1 at a concrete input: a fresh key is accepted at time
2000 and its stored timestamp becomes 2000. -/
theorem C1_server_rate_gate_witness :
    rateGet (checkRateLimit [] "1.2.3.4" 2000).state "1.2.3.4" = 2000 :=
  ((C1_server_rate_gate [] "1.2.3.4" 2000).2.1 (by decide)).1

/-- Claim C2 (counterexample): the client limiter is not shared across
the two sides.  With both refs at their initial value 0, an input-side
action at t = 2000 is accepted, and an output-side action at t = 2500 —
within 1000 ms of the accepted input-side action — is also accepted,
where the claim says it must be rejected. -/
theorem C2_counterexample :
    (appAction ⟨⟨0⟩, ⟨0⟩⟩ .input 2000).1.ok = true
    ∧ (2500 : Int) - 2000 < 1000
    ∧ (appAction (appAction ⟨⟨0⟩, ⟨0⟩⟩ .input 2000).2 .output 2500).1.ok = true := by
  decide

/-- Claim C2 (amended): each `VoiceControls` instance owns its own
1000 ms rate limiter.  An action on one side never touches the other
side's ref; within a single side, an invocation strictly within 1000 ms
of the last accepted invocation is rejected with the please-wait error
and leaves both refs unchanged, and an accepted invocation resets only
its own side's ref to the current time. -/
theorem C2_per_instance_limiter (s : AppLimiters) (now : Int) :
    ((appAction s .input now).2.outputLimiter = s.outputLimiter)
    ∧ ((appAction s .output now).2.inputLimiter = s.inputLimiter)
    ∧ (∀ side,
        ((appAction s side now).1.ok = false ↔
          now - (limiterOf s side).lastApiCall < 1000)
        ∧ ((appAction s side now).1.ok = false →
            (appAction s side now).1.error
              = some "Please wait a moment before making another request."
            ∧ (appAction s side now).2 = s)
        ∧ ((appAction s side now).1.ok = true →
            limiterOf (appAction s side now).2 side = ⟨now⟩)) := by
  refine ⟨?_, ?_, ?_⟩
  · by_cases h : now - s.inputLimiter.lastApiCall < 1000 <;>
      simp [appAction, clientCheckRateLimit, RATE_LIMIT_DELAY, h]
  · by_cases h : now - s.outputLimiter.lastApiCall < 1000 <;>
      simp [appAction, clientCheckRateLimit, RATE_LIMIT_DELAY, h]
  · intro side
    cases side with
    | input =>
      by_cases h : now - s.inputLimiter.lastApiCall < 1000 <;>
        simp [appAction, clientCheckRateLimit, RATE_LIMIT_DELAY, limiterOf, h]
    | output =>
      by_cases h : now - s.outputLimiter.lastApiCall < 1000 <;>
        simp [appAction, clientCheckRateLimit, RATE_LIMIT_DELAY, limiterOf, h]

/-- Witness for C2 (amended) at a concrete input: an accepted input-side
action at t = 2000 resets the input ref to 2000. -/
theorem C2_per_instance_limiter_witness :
    limiterOf (appAction ⟨⟨0⟩, ⟨0⟩⟩ .input 2000).2 .input = ⟨2000⟩ :=
  (((C2_per_instance_limiter ⟨⟨0⟩, ⟨0⟩⟩ 2000).2.2 .input).2.2) (by decide)

/-- Claim C3 (counterexample): the main request issued by
`transcribeAudio` in src/src/services/openai.ts is a client-side main
request that carries no abort signal at all, so not every client-side
main request is bounded by a 30-second abort signal. -/
theorem C3_counterexample :
    servicesTranscribeRequest ∈ clientMainRequests
    ∧ servicesTranscribeRequest.timeoutMs = none
    ∧ servicesTranscribeRequest.timeoutMs ≠ some 30000 := by
  decide

/-- Claim C3 (amended): the two audioUtils.js operations bound their
main request with a 30-second abort signal and map an abort onto
dedicated timed-out messages, distinct from their generic failure
messages; the two src/src/services/openai.ts operations issue their
main request with no abort signal. -/
theorem C3_timeout_bounds :
    audioUtilsTranscribeRequest.timeoutMs = some 30000
    ∧ audioUtilsSpeechRequest.timeoutMs = some 30000
    ∧ servicesTranscribeRequest.timeoutMs = none
    ∧ servicesSpeechRequest.timeoutMs = none
    ∧ audioUtilsTranscribeResult .abortError
        = .error "Transcription request timed out. Try a shorter recording (under 10 seconds)."
    ∧ audioUtilsSpeechResult .abortError
        = .error "Speech generation request timed out. Try shorter text."
    ∧ audioUtilsTranscribeResult .abortError
        ≠ .error "Transcription failed"
    ∧ audioUtilsSpeechResult .abortError
        ≠ .error "Speech generation failed" := by
  decide

/-- Claim C4 (counterexample): a provider failure whose error object
carries status 401 is answered by POST /api/speech with status 401
(`error.status || 500` passes the provider status through), which is
none of 400, 429 or 500. -/
theorem C4_counterexample :
    (speechHandler [] "1.2.3.4" 2000 ⟨"hello", none⟩
        (fun _ _ => .error ⟨some 401, "Incorrect API key provided"⟩)).response
      = .json 401 "Failed to generate speech."
    ∧ ¬ ((401 : Int) = 400 ∨ (401 : Int) = 429 ∨ (401 : Int) = 500) := by
  decide

/-- Claim C4 (amended): every failing response of POST /api/speech has
status 429 (rate gate), 400 (empty or over-length text), or — for a
provider failure — the provider error's own status when it is present
and nonzero and 500 otherwise, with the timeout-specific or generic
message. -/
theorem C4_speech_failing_statuses (m : RateMap) (ip : String) (now : Int)
    (body : SpeechBody) (provider : String → String → Except ProviderErr (List Nat))
    (s : Int) (e : String)
    (h : (speechHandler m ip now body provider).response = .json s e) :
    (s = 429 ∧ e = "Too many requests. Please wait a moment.")
    ∨ (s = 400 ∧ (e = "No text provided"
        ∨ e = "Text too long. Maximum length is 4000 characters."))
    ∨ (∃ err, provider (selectedVoice body.voice) body.text = .error err
        ∧ s = jsStatusOr500 err.status ∧ e = speechErrMsg err.message) := by
  simp only [speechHandler] at h
  split at h
  · simp only [SpeechResponse.json.injEq] at h
    exact Or.inl ⟨h.1.symm, h.2.symm⟩
  · split at h
    · simp only [SpeechResponse.json.injEq] at h
      exact Or.inr (Or.inl ⟨h.1.symm, Or.inl h.2.symm⟩)
    · split at h
      · simp only [SpeechResponse.json.injEq] at h
        exact Or.inr (Or.inl ⟨h.1.symm, Or.inr h.2.symm⟩)
      · rename_i heqp
        split at h
        · simp at h
        · rename_i e2 heq2
          simp only [SpeechResponse.json.injEq] at h
          exact Or.inr (Or.inr ⟨e2, heq2, h.1.symm, h.2.symm⟩)

/-- Witness for C4 (amended): at time 0 a fresh key is rate-limited,
and the response carries status 429. -/
theorem C4_speech_failing_statuses_witness :
    ((429 : Int) = 429
      ∧ ("Too many requests. Please wait a moment." : String)
          = "Too many requests. Please wait a moment.")
    ∨ ((429 : Int) = 400
      ∧ (("Too many requests. Please wait a moment." : String) = "No text provided"
        ∨ ("Too many requests. Please wait a moment." : String)
            = "Text too long. Maximum length is 4000 characters."))
    ∨ (∃ err, (fun (_ _ : String) => (.ok [] : Except ProviderErr (List Nat)))
          (selectedVoice (SpeechBody.mk "hello" none).voice)
          (SpeechBody.mk "hello" none).text = .error err
        ∧ (429 : Int) = jsStatusOr500 err.status
        ∧ ("Too many requests. Please wait a moment." : String)
            = speechErrMsg err.message) :=
  C4_speech_failing_statuses [] "1.2.3.4" 0 ⟨"hello", none⟩
    (fun _ _ => .ok []) 429 "Too many requests. Please wait a moment." (by decide)

/-- Claim C5: both gateway operations issue the liveness check first:
when it fails at the network level or responds non-ok, they produce the
connection-failed error without issuing the main request; and when the
liveness check succeeds, a raw network failure of the main request is
normalized to the same connection-failed error. -/
theorem C5_gateway_connectivity (health : FetchResult Unit)
    (mainT : FetchResult String) (mainS : FetchResult (List Nat)) :
    ((health = .netFail ∨ ∃ errF v, health = .resp false errF v) →
        transcribeAudioClient health mainT = ⟨.error connFailMsg, false⟩
        ∧ generateSpeechClient health mainS = ⟨.error connFailMsg, false⟩)
    ∧ (∀ errF v, health = .resp true errF v →
        (transcribeAudioClient health .netFail
            = ⟨.error connFailMsg, true⟩)
        ∧ (generateSpeechClient health .netFail
            = ⟨.error connFailMsg, true⟩)) := by
  constructor
  · rintro (rfl | ⟨errF, v, rfl⟩) <;>
      simp [transcribeAudioClient, generateSpeechClient, normalizeNetErr, connFailMsg]
  · rintro errF v rfl
    constructor <;>
      simp [transcribeAudioClient, generateSpeechClient, normalizeNetErr, connFailMsg]

/-- Witness for C5 at a concrete input: with a non-ok health response
the transcription gateway fails with the connection error without
attempting the main request, and with an ok health response a network
failure of the main request yields the same error. -/
theorem C5_gateway_connectivity_witness :
    (transcribeAudioClient (.resp false none ()) (.resp true none "hi")
        = ⟨.error connFailMsg, false⟩
      ∧ generateSpeechClient (.resp false none ()) (.resp true none [1])
        = ⟨.error connFailMsg, false⟩)
    ∧ (transcribeAudioClient (.resp true none ()) .netFail
        = ⟨.error connFailMsg, true⟩
      ∧ generateSpeechClient (.resp true none ()) .netFail
        = ⟨.error connFailMsg, true⟩) :=
  ⟨(C5_gateway_connectivity (.resp false none ()) (.resp true none "hi")
      (.resp true none [1])).1 (Or.inr ⟨none, (), rfl⟩),
   (C5_gateway_connectivity (.resp true none ()) (.resp true none "hi")
      (.resp true none [1])).2 none () rfl⟩

theorem dropWhile_replicate_of_true {c : Char} {p : Char → Bool} (h : p c = true)
    (n : Nat) : (List.replicate n c).dropWhile p = [] := by
  induction n with
  | zero => rfl
  | succ k ih => simp [List.replicate_succ, List.dropWhile_cons, h, ih]

theorem dropWhile_replicate_of_false {c : Char} {p : Char → Bool} (h : p c = false)
    (n : Nat) : (List.replicate n c).dropWhile p = List.replicate n c := by
  cases n with
  | zero => rfl
  | succ k => simp [List.replicate_succ, List.dropWhile_cons, h]

theorem jsTrim_replicate_ws (n : Nat) :
    jsTrim (String.mk (List.replicate n ' ')) = "" := by
  simp [jsTrim, dropWhile_replicate_of_true (show jsIsWS ' ' = true by decide)]

theorem jsTrim_replicate_a (n : Nat) :
    jsTrim (String.mk (List.replicate n 'a')) = String.mk (List.replicate n 'a') := by
  simp [jsTrim, dropWhile_replicate_of_false (show jsIsWS 'a' = false by decide)]

theorem jsLength_replicate (n : Nat) (c : Char) :
    jsLength (String.mk (List.replicate n c)) = n := by
  simp [jsLength]

theorem empty_string_eq_mk : ("" : String) = String.mk [] := rfl

theorem replicate_string_ne_empty (n : Nat) (c : Char) (h : n ≠ 0) :
    String.mk (List.replicate n c) ≠ "" := by
  intro he
  rw [empty_string_eq_mk] at he
  have hdata : List.replicate n c = [] := congrArg String.data he
  simp at hdata
  exact h hdata

/-- A 4001-character whitespace-only text. -/
def longSpaces : String := String.mk (List.replicate 4001 ' ')

/-- A 4001-character text of letters. -/
def longAs : String := String.mk (List.replicate 4001 'a')

theorem jsTrim_longSpaces : jsTrim longSpaces = "" :=
  jsTrim_replicate_ws 4001

theorem jsTrim_longAs : jsTrim longAs = longAs :=
  jsTrim_replicate_a 4001

theorem jsLength_longSpaces : jsLength longSpaces = 4001 :=
  jsLength_replicate 4001 ' '

theorem jsLength_longAs : jsLength longAs = 4001 :=
  jsLength_replicate 4001 'a'

theorem longSpaces_ne_empty : longSpaces ≠ "" :=
  replicate_string_ne_empty 4001 ' ' (by decide)

theorem longAs_ne_empty : longAs ≠ "" :=
  replicate_string_ne_empty 4001 'a' (by decide)

/-- Claim C6 (counterexample): a whitespace-only text of 4001
characters passes the rate gate but is answered with
400 `No text provided`, not 400 `Text too long. Maximum length is 4000
characters.`: the emptiness check runs before the length check. -/
theorem C6_counterexample :
    jsLength longSpaces > 4000
    ∧ ¬ (2000 : Int) - rateGet [] "1.2.3.4" < 1000
    ∧ (speechHandler [] "1.2.3.4" 2000 ⟨longSpaces, none⟩
          (fun _ _ => .ok [])).response = .json 400 "No text provided"
    ∧ ("No text provided" : String)
        ≠ "Text too long. Maximum length is 4000 characters." := by
  refine ⟨by rw [jsLength_longSpaces]; norm_num, by decide, ?_, by decide⟩
  simp [speechHandler, checkRateLimit_accept [] "1.2.3.4" 2000 (by decide),
        jsTrim_longSpaces]

/-- Claim C6 (amended): a request whose text is longer than 4000
characters and passes the rate gate is answered 400 before any provider
call; the message is `Text too long. Maximum length is 4000
characters.` whenever the trimmed text is nonempty, and `No text
provided` when the text is whitespace-only. -/
theorem C6_overlength_rejected (m : RateMap) (ip : String) (now : Int)
    (body : SpeechBody) (provider : String → String → Except ProviderErr (List Nat))
    (hgate : ¬ now - rateGet m ip < 1000)
    (hlen : jsLength body.text > 4000) :
    (speechHandler m ip now body provider).providerCalled = none
    ∧ ((speechHandler m ip now body provider).response
          = .json 400 "Text too long. Maximum length is 4000 characters."
        ∨ (speechHandler m ip now body provider).response
          = .json 400 "No text provided")
    ∧ (jsTrim body.text ≠ "" →
        (speechHandler m ip now body provider).response
          = .json 400 "Text too long. Maximum length is 4000 characters.") := by
  have hne : body.text ≠ "" := by
    intro he
    rw [he] at hlen
    rw [show jsLength "" = 0 from rfl] at hlen
    exact absurd hlen (by norm_num)
  by_cases htrim : jsTrim body.text = ""
  · simp [speechHandler, checkRateLimit_accept m ip now hgate, hne, htrim]
  · simp [speechHandler, checkRateLimit_accept m ip now hgate, hne, htrim, hlen]

/-- Witness for C6 (amended): a 4001-letter text is answered
400 `Text too long. Maximum length is 4000 characters.` with no
provider call. -/
theorem C6_overlength_rejected_witness :
    (speechHandler [] "1.2.3.4" 2000 ⟨longAs, none⟩
        (fun _ _ => .ok [])).providerCalled = none
    ∧ (speechHandler [] "1.2.3.4" 2000 ⟨longAs, none⟩
        (fun _ _ => .ok [])).response
        = .json 400 "Text too long. Maximum length is 4000 characters." := by
  have h := C6_overlength_rejected [] "1.2.3.4" 2000 ⟨longAs, none⟩
    (fun _ _ => .ok []) (by decide) (by rw [jsLength_longAs]; norm_num)
  exact ⟨h.1, h.2.2 (by rw [jsTrim_longAs]; exact longAs_ne_empty)⟩

/-- Claim C7: every successful response of POST /api/speech carries
`Content-Type: audio/mpeg` and a `Content-Length` equal to the exact
byte length of the body that is sent. -/
theorem C7_content_length (m : RateMap) (ip : String) (now : Int)
    (body : SpeechBody) (provider : String → String → Except ProviderErr (List Nat))
    (ct : String) (len : Nat) (bytes : List Nat)
    (h : (speechHandler m ip now body provider).response = .audio ct len bytes) :
    ct = "audio/mpeg" ∧ len = bytes.length := by
  simp only [speechHandler] at h
  split at h
  · simp at h
  · split at h
    · simp at h
    · split at h
      · simp at h
      · split at h
        · simp only [SpeechResponse.audio.injEq] at h
          exact ⟨h.1.symm, by rw [h.2.1.symm, h.2.2]⟩
        · simp at h

/-- Witness for C7 at a concrete input: a successful synthesis of three
bytes is sent with Content-Length 3. -/
theorem C7_content_length_witness :
    ("audio/mpeg" : String) = "audio/mpeg" ∧ (3 : Nat) = [7, 8, 9].length :=
  C7_content_length [] "1.2.3.4" 2000 ⟨"hello", none⟩
    (fun _ _ => .ok [7, 8, 9]) "audio/mpeg" 3 [7, 8, 9] (by decide)

/-- Claim C8: `stopRecording` never throws (in particular it is a no-op
when no recorder exists or the recorder is already inactive), it is
idempotent, it stops every track of the recorder's stream whenever the
recorder was active, and the countdown auto-stop at 1 or less remaining
seconds performs exactly the same call. -/
theorem C8_stop_recording (c : RecorderRef) :
    (∃ c2, stopRecording c = .ok c2)
    ∧ (∀ c2, stopRecording c = .ok c2 → stopRecording c2 = .ok c2)
    ∧ (∀ r, c.mediaRecorder = some r → ¬ r.state = .inactive →
        stopRecording c
          = .ok ⟨some ⟨.inactive, stopAllTracks r.streamTracks⟩⟩
        ∧ ∀ t ∈ stopAllTracks r.streamTracks, t = .ended)
    ∧ (∀ timeLeft, timeLeft ≤ 1 → countdownTick timeLeft c = (0, stopRecording c)) := by
  obtain ⟨mr⟩ := c
  refine ⟨?_, ?_, ?_, ?_⟩
  · match mr with
    | none => exact ⟨⟨none⟩, rfl⟩
    | some r =>
      by_cases hs : r.state = .inactive
      · exact ⟨⟨some r⟩, by simp [stopRecording, hs]⟩
      · refine ⟨⟨some ⟨.inactive, stopAllTracks r.streamTracks⟩⟩, ?_⟩
        cases r with
        | mk st tr => cases st <;> simp_all [stopRecording, recorderStop]
  · intro c2 h2
    match mr with
    | none =>
      simp only [stopRecording] at h2
      cases h2
      rfl
    | some r =>
      by_cases hs : r.state = .inactive
      · simp only [stopRecording, hs, if_pos] at h2
        cases h2
        simp [stopRecording, hs]
      · cases r with
        | mk st tr =>
          cases st with
          | inactive => simp at hs
          | recording =>
            simp only [stopRecording, recorderStop] at h2
            cases h2
            simp [stopRecording]
          | paused =>
            simp only [stopRecording, recorderStop] at h2
            cases h2
            simp [stopRecording]
  · rintro r rfl hs
    constructor
    · cases r with
      | mk st tr => cases st <;> simp_all [stopRecording, recorderStop]
    · intro t ht
      simp [stopAllTracks] at ht
      exact ht.2
  · intro timeLeft hle
    simp [countdownTick, hle]

/-- Witness for C8 at a concrete input: stopping an active recorder
with two live tracks succeeds, leaves the recorder inactive, ends both
tracks, and a second stop is accepted unchanged. -/
theorem C8_stop_recording_witness :
    (stopRecording ⟨some ⟨.recording, [.live, .live]⟩⟩
        = .ok ⟨some ⟨.inactive, stopAllTracks [.live, .live]⟩⟩
      ∧ ∀ t ∈ stopAllTracks [.live, .live], t = .ended)
    ∧ stopRecording ⟨some ⟨.inactive, stopAllTracks [.live, .live]⟩⟩
        = .ok ⟨some ⟨.inactive, stopAllTracks [.live, .live]⟩⟩ :=
  ⟨(C8_stop_recording ⟨some ⟨.recording, [.live, .live]⟩⟩).2.2.1
      ⟨.recording, [.live, .live]⟩ rfl (by decide),
   (C8_stop_recording ⟨some ⟨.recording, [.live, .live]⟩⟩).2.1
      ⟨some ⟨.inactive, stopAllTracks [.live, .live]⟩⟩
      (((C8_stop_recording ⟨some ⟨.recording, [.live, .live]⟩⟩).2.2.1
          ⟨.recording, [.live, .live]⟩ rfl (by decide)).1)⟩

/-- Claim C9: the shipped client's `generateSpeech` sends a body whose
`voice` field is absent, so whenever the server's /api/speech handler
reaches the provider on such a body, it does so with the default voice
`alloy` and the client's text. -/
theorem C9_default_voice (t : String) (m : RateMap) (ip : String) (now : Int)
    (provider : String → String → Except ProviderErr (List Nat)) :
    (clientSpeechBody t).voice = none
    ∧ selectedVoice (clientSpeechBody t).voice = "alloy"
    ∧ ((speechHandler m ip now (clientSpeechBody t) provider).providerCalled = none
        ∨ (speechHandler m ip now (clientSpeechBody t) provider).providerCalled
            = some ("alloy", t)) := by
  refine ⟨rfl, rfl, ?_⟩
  simp only [speechHandler]
  split
  · exact Or.inl rfl
  · split
    · exact Or.inl rfl
    · split
      · exact Or.inl rfl
      · split
        · exact Or.inr rfl
        · exact Or.inr rfl

/-- Claim C10: once the client rate limiter accepts a start action,
`startRecording` clears the target textarea before the permission
request, for every permission outcome (including denial); a
rate-limited start action leaves the textarea unchanged. -/
theorem C10_clear_textarea (s : InputState) (now : Int) (perm : PermOutcome)
    (v : String) (htarget : s.target = .textArea v) :
    (¬ now - s.limiter.lastApiCall < 1000 →
        (startRecording s now perm).target = .textArea "")
    ∧ (now - s.limiter.lastApiCall < 1000 →
        (startRecording s now perm).target = .textArea v) := by
  constructor
  · intro h
    cases perm <;>
      simp [startRecording, clientCheckRateLimit, RATE_LIMIT_DELAY, h,
            htarget, clearTextArea]
  · intro h
    cases perm <;>
      simp [startRecording, clientCheckRateLimit, RATE_LIMIT_DELAY, h,
            htarget, clearTextArea]

/-- Witness for C10 at a concrete input: a start action that passes the
rate limiter clears the prior text even though the microphone
permission is then denied. -/
theorem C10_clear_textarea_witness :
    (startRecording ⟨⟨0⟩, .textArea "prior text", none, false, false⟩
        2000 .deniedNotAllowed).target = .textArea "" :=
  (C10_clear_textarea ⟨⟨0⟩, .textArea "prior text", none, false, false⟩
      2000 .deniedNotAllowed "prior text" rfl).1 (by norm_num)

end VoiceDemo
